import Mathlib

/-!
Verification model of `app.py`, a single-file Streamlit front-end that
uploads PDF files to an S3 bucket and forwards questions to a remote
question-answering backend over HTTP.

The pure logic of the file is embedded shallowly: network and S3 effects
are modelled by outcome oracles (one value per call the code makes), JSON
values by an inductive type, and Python dictionaries by association lists.
-/

/-- JSON values, as exchanged with the backend and returned by the
handlers (Python dicts become association lists). -/
inductive Json where
  | null : Json
  | bool : Bool → Json
  | num : Int → Json
  | str : String → Json
  | arr : List Json → Json
  | obj : List (String × Json) → Json

/-- Python truthiness of a JSON value: `None`, `False`, `0`, `""`, `[]`
and `\x7b\x7d` are falsy, everything else truthy. -/
def Json.truthy : Json → Bool
  | .null => false
  | .bool b => b
  | .num n => n != 0
  | .str s => s != ""
  | .arr l => !l.isEmpty
  | .obj l => !l.isEmpty

/-- Key lookup on a JSON object (`d[k]` / membership); `none` when the
value is not an object or the key is absent. -/
def Json.lookup (j : Json) (k : String) : Option Json :=
  match j with
  | .obj fields => (fields.find? (fun p => p.1 == k)).map (fun p => p.2)
  | _ => none

/-- Python `dict.get(k)` on an association list: the stored value, or
`None` (modelled as `Json.null`) when the key is absent. -/
def dictGet (fields : List (String × Json)) (k : String) : Json :=
  match fields.find? (fun p => p.1 == k) with
  | some p => p.2
  | none => Json.null

/-- The characters Python's `str.strip()` removes (ASCII whitespace; the
source strings here are ASCII). -/
def pyIsSpace (c : Char) : Bool :=
  c == ' ' || c == '\t' || c == '\n' || c == '\r' || c == '\x0b' || c == '\x0c'

/-- Python `str.strip()`: drop leading and trailing whitespace. -/
def pyStrip (s : String) : String :=
  String.mk (((s.data.dropWhile pyIsSpace).reverse.dropWhile pyIsSpace).reverse)

/-- Python `a or b` on JSON values: `a` when truthy, else `b`. -/
def pyOr (a b : Json) : Json := if a.truthy then a else b

/-- Truthiness of the `namespace: str | None` parameter (`if namespace:`,
app.py line 82): `None` and `""` are falsy. -/
def optStrTruthy : Option String → Bool
  | some s => s != ""
  | none => false

/-- Truthiness of the `documentos: list | None` parameter
(`if documentos:`, app.py line 84): `None` and `[]` are falsy. -/
def optListTruthy : Option (List Json) → Bool
  | some l => !l.isEmpty
  | none => false

/-- Outcome oracle for the single `requests.post(f"\x7bBACKEND_URL\x7d/chat", ...)`
call (app.py line 88): either a response with a status code, a body text
and the result of parsing that body as JSON (`none` when the body is not
valid JSON), or a raised `requests.RequestException` (other than
`HTTPError`, which only `raise_for_status` produces here). -/
inductive PostOutcome where
  | response : Nat → String → Option Json → PostOutcome
  | exception : String → PostOutcome

/-- What `perguntar_backend` produces, observably: the returned dict, and
whether and with which JSON payload the HTTP POST was issued. -/
structure PergReturn where
  result : Json
  requestSent : Bool
  payload : Option Json

/-- The payload built at app.py lines 81-85: `question` (stripped) and `k`
always, `namespace` when that argument is truthy, `documents` when that
argument is truthy. -/
def buildPayload (pergunta : String) (k : Int) (ns : Option String)
    (docs : Option (List Json)) : Json :=
  let base : List (String × Json) :=
    [("question", .str (pyStrip pergunta)), ("k", .num k)]
  let base := if optStrTruthy ns then base ++ [("namespace", .str (ns.getD ""))] else base
  let base := if optListTruthy docs then base ++ [("documents", .arr (docs.getD []))] else base
  .obj base

/-- `perguntar_backend` (app.py lines 73-99). The network is the
`net : PostOutcome` oracle; `resp.raise_for_status()` raises
`requests.HTTPError` exactly for status codes in [400, 600). The Python
function returns a dict; here the dict together with the observed request
activity is returned. -/
def perguntar_backend (pergunta : String) (k : Int) (ns : Option String)
    (docs : Option (List Json)) (net : PostOutcome) : PergReturn :=
  if pergunta == "" || pyStrip pergunta == "" then
    { result := .obj [("ok", .bool false), ("error", .str "Pergunta vazia.")],
      requestSent := false, payload := none }
  else
    let payload := buildPayload pergunta k ns docs
    let result : Json :=
      match net with
      | .response status text parsed =>
        if 400 ≤ status && status < 600 then
          .obj [("ok", .bool false),
                ("error", .str ("HTTP " ++ toString status ++ ": " ++ text))]
        else
          let data := match parsed with
            | some j => j
            | none => .obj [("raw", .str text)]
          .obj [("ok", .bool true), ("data", data)]
      | .exception msg =>
          .obj [("ok", .bool false),
                ("error", .str ("Falha de conexão com o backend: " ++ msg))]
    { result := result, requestSent := true, payload := some payload }

/-- Outcome oracle for the single `requests.get(f"\x7bBACKEND_URL\x7d/health", timeout=10)`
call (app.py line 35): a response with a status code, or a raised
`requests.RequestException`. -/
inductive GetOutcome where
  | response : Nat → GetOutcome
  | exception : String → GetOutcome
deriving DecidableEq

/-- `check_health_server` (app.py lines 33-38): `True` exactly when the
GET to `/health` returns status 200; any `RequestException` gives `False`. -/
def check_health_server : GetOutcome → Bool
  | .response status => status == 200
  | .exception _ => false

/-- Outcome oracle for the single `s3.head_bucket(Bucket=BUCKET_NAME)`
call (app.py line 61): success, or one of the caught exception classes
(each carrying the text its handler interpolates into the message). -/
inductive HeadBucketOutcome where
  | success : HeadBucketOutcome
  | noCredentials : HeadBucketOutcome
  | endpointConnectionError : String → HeadBucketOutcome
  | clientError : String → HeadBucketOutcome
  | otherException : String → HeadBucketOutcome
deriving DecidableEq

/-- `check_s3_access` (app.py lines 56-71). `endpointDisp` is the string
`S3_ENDPOINT or 'AWS padrão'` interpolated into the connection-failure
message. -/
def check_s3_access (endpointDisp : String) : HeadBucketOutcome → Bool × String
  | .success => (true, "Acesso ao bucket OK.")
  | .noCredentials => (false, "Credenciais AWS ausentes.")
  | .endpointConnectionError e =>
      (false, "Falha ao conectar no endpoint S3 (" ++ endpointDisp ++ "): " ++ e)
  | .clientError e => (false, "ClientError ao acessar bucket: " ++ e)
  | .otherException e => (false, "Erro inesperado no S3: " ++ e)

/-- Python `str.split(".")` on the character list of a name: the groups
between the dots, in order; always non-empty, with empty groups for
leading, trailing or doubled dots. -/
def splitOnDot : List Char → List (List Char)
  | [] => [[]]
  | c :: cs =>
    if c == '.' then [] :: splitOnDot cs
    else
      match splitOnDot cs with
      | [] => [[c]]
      | g :: gs => (c :: g) :: gs

/-- Python `name.split(".")[-1]`: the segment after the last dot (the
whole name when there is no dot). -/
def lastSeg (name : List Char) : List Char := (splitOnDot name).getLastD []

/-- The `ext` variable of `s3_safe_key` (app.py lines 28-30):
`"." + name.split(".")[-1]` when the name contains a dot, else `""`. -/
def extOf (name : List Char) : List Char :=
  if name.contains '.' then '.' :: lastSeg name else []

/-- `s3_safe_key` (app.py lines 27-31). The call `uuid4().hex` is modelled
by the explicit `uuidHex` input (a fresh 32-character lowercase hex
string); the function returns that hex string followed by the extension. -/
def s3_safe_key (uuidHex : String) (name : String) : String :=
  uuidHex ++ String.mk (extOf name.data)

/-- Lowercase hexadecimal digit, the alphabet of `uuid4().hex`. -/
def isLowerHex (c : Char) : Bool := c.isDigit || ('a' ≤ c && c ≤ 'f')

/-- A 32-character lowercase hexadecimal string: the shape of every value
of `uuid4().hex`. -/
def isHex32 (s : String) : Bool := s.length == 32 && s.data.all isLowerHex

/-- Outcome oracle for one `s3.upload_fileobj(...)` call in the upload
loop (app.py lines 146-151): success or one of the caught exception
classes, each carrying the strings its handler puts into the failure
record. For `ClientError` those are `err.get('Code')` and
`err.get('Message')` already rendered as text. -/
inductive UploadOutcome where
  | success : UploadOutcome
  | noCredentials : UploadOutcome
  | endpointConnectionError : String → UploadOutcome
  | clientError : String → String → UploadOutcome
  | otherException : String → UploadOutcome
deriving DecidableEq

/-- Whether an upload outcome is the success branch. -/
def UploadOutcome.isSuccess : UploadOutcome → Bool
  | .success => true
  | _ => false

/-- The reason string appended to `falhas` for a failed upload
(app.py lines 160, 165, 171, 176). -/
def failReason : UploadOutcome → String
  | .success => ""
  | .noCredentials => "NoCredentialsError (credenciais ausentes)"
  | .endpointConnectionError e => "EndpointConnectionError: " ++ e
  | .clientError code msg => code ++ " - " ++ msg
  | .otherException e => e

/-- One selected file in the upload loop: its original name, the fresh
`uuid4().hex` drawn for it, and the outcome of its `upload_fileobj` call. -/
structure UploadStep where
  name : String
  uuidHex : String
  outcome : UploadOutcome
deriving DecidableEq

/-- The `Enviar para S3` loop over the selected files (app.py lines
136-177): per file, build the key `f"uploads/\x7bs3_safe_key(f.name)\x7d"`, attempt
the upload, and append either the key to `enviados` or the pair
`(f.name, reason)` to `falhas`; an exception on one file does not stop the
loop. Returns `(enviados, falhas)`. -/
def uploadToS3 : List UploadStep → List String × List (String × String)
  | [] => ([], [])
  | f :: rest =>
    let key := "uploads/" ++ s3_safe_key f.uuidHex f.name
    let (env, fal) := uploadToS3 rest
    match f.outcome with
    | .success => (key :: env, fal)
    | o => (env, (f.name, failReason o) :: fal)

/-- The answer/sources extraction of the `Enviar` handler (app.py lines
216-230), on the fields of a successful response dict `data`: the
displayed answer is `data.get("answer") or data.get("resposta") or
data.get("raw") or data`, and the sources block renders
`data.get("sources") or data.get("fontes")` exactly when that value is
truthy (`some` = rendered). -/
def extractDisplay (fields : List (String × Json)) : Json × Option Json :=
  let answer :=
    pyOr (pyOr (pyOr (dictGet fields "answer") (dictGet fields "resposta"))
      (dictGet fields "raw")) (.obj fields)
  let fontes := pyOr (dictGet fields "sources") (dictGet fields "fontes")
  (answer, if fontes.truthy then some fontes else none)

/-- A boto3 `retries` configuration: a maximum attempt count and a retry
mode. -/
structure RetryConfig where
  maxAttempts : Nat
  mode : String
deriving DecidableEq

/-- The `botocore.config.Config` passed to `boto3.client` (app.py line
52): `retries` is `none` when the program leaves the library default. -/
structure BotoConfig where
  signature_version : String
  retries : Option RetryConfig
deriving DecidableEq

/-- The configuration the program passes to `boto3.client("s3", ...)`
(app.py line 52): `Config(signature_version="s3v4",
retries=\x7b"max_attempts": 3, "mode": "standard"\x7d)`. -/
def s3_client_config : BotoConfig :=
  { signature_version := "s3v4", retries := some { maxAttempts := 3, mode := "standard" } }

/-- The keyword arguments of the `requests.get` call (app.py line 35):
only `timeout`; no retry adapter or retry count. -/
def requests_get_kwargs : List String := ["timeout"]

/-- The keyword arguments of the `requests.post` call (app.py line 88):
only `json` and `timeout`; no retry adapter or retry count. -/
def requests_post_kwargs : List String := ["json", "timeout"]


/-! ## Helper lemmas -/

/-- A string whose left append part is non-empty is non-empty. -/
theorem append_ne_empty_left (a b : String) (h : a ≠ "") : a ++ b ≠ "" := by
  intro hc
  apply h
  apply String.ext
  have hd := congrArg String.data hc
  rw [String.data_append] at hd
  exact (List.append_eq_nil.mp hd).1

/-- `String.mk` produces the empty string exactly on the empty list. -/
theorem mk_eq_empty_iff (l : List Char) : String.mk l = "" ↔ l = [] := by
  constructor
  · intro h
    exact congrArg String.data h
  · intro h
    rw [h]

/-- If every character left after dropping the leading run of `p` satisfies
`p`, the whole list satisfies `p`. -/
theorem all_of_dropWhile_all (p : Char → Bool) (l : List Char)
    (h : ∀ x ∈ l.dropWhile p, p x = true) : ∀ x ∈ l, p x = true := by
  intro x hx
  rw [← List.takeWhile_append_dropWhile p l] at hx
  rcases List.mem_append.mp hx with h1 | h2
  · exact List.mem_takeWhile_imp h1
  · exact h x h2

/-- `pyStrip` returns the empty string exactly when every character of the
input is whitespace (so the code's guard condition is "empty or blank"). -/
theorem pyStrip_eq_empty_iff (s : String) :
    pyStrip s = "" ↔ s.data.all pyIsSpace = true := by
  unfold pyStrip
  rw [mk_eq_empty_iff, List.reverse_eq_nil_iff, List.dropWhile_eq_nil_iff,
    List.all_eq_true]
  constructor
  · intro h
    apply all_of_dropWhile_all
    intro x hx
    exact h x (List.mem_reverse.mpr hx)
  · intro h x hx
    exact h x ((List.dropWhile_sublist pyIsSpace).mem (List.mem_reverse.mp hx))

/-- The code's empty-question guard `not pergunta or not pergunta.strip()`
fires exactly on all-whitespace questions. -/
theorem guard_iff_all_space (p : String) :
    (p == "" || pyStrip p == "") = true ↔ p.data.all pyIsSpace = true := by
  rw [Bool.or_eq_true, beq_iff_eq, beq_iff_eq, pyStrip_eq_empty_iff]
  constructor
  · rintro (h | h)
    · rw [h]; rfl
    · exact h
  · intro h
    exact Or.inr h

/-- `splitOnDot` never returns the empty list (Python `split` always
returns at least one group). -/
theorem splitOnDot_ne_nil (l : List Char) : splitOnDot l ≠ [] := by
  cases l with
  | nil => simp [splitOnDot]
  | cons c cs =>
    simp only [splitOnDot]
    split
    · simp
    · split <;> simp

/-- Appending a trailing dot appends one empty group to the split. -/
theorem splitOnDot_concat (l : List Char) :
    splitOnDot (l ++ ['.']) = splitOnDot l ++ [[]] := by
  induction l with
  | nil => rfl
  | cons c cs ih =>
    obtain ⟨g, gs, hgs⟩ : ∃ g gs, splitOnDot cs = g :: gs := by
      cases hsp : splitOnDot cs with
      | nil => exact absurd hsp (splitOnDot_ne_nil cs)
      | cons g gs => exact ⟨g, gs, rfl⟩
    cases hc : (c == '.') with
    | true => simp [splitOnDot, hc, ih]
    | false => simp [splitOnDot, hc, ih, hgs]

/-- The segment after the last dot of a name ending in a dot is empty. -/
theorem lastSeg_concat_dot (l : List Char) : lastSeg (l ++ ['.']) = [] := by
  unfold lastSeg
  rw [splitOnDot_concat]
  exact List.getLastD_concat _ _ _

/-- The successes of the upload loop, in order: one key
`"uploads/" ++ s3_safe_key uuid name` per file whose upload succeeded. -/
theorem uploadToS3_fst (fs : List UploadStep) :
    (uploadToS3 fs).1 = (fs.filter (fun f => f.outcome.isSuccess)).map
      (fun f => "uploads/" ++ s3_safe_key f.uuidHex f.name) := by
  induction fs with
  | nil => rfl
  | cons f rest ih =>
    cases f with
    | mk n u o =>
      cases o <;> simp [uploadToS3, UploadOutcome.isSuccess, ih]

/-- The failures of the upload loop, in order: one `(name, reason)` pair
per file whose upload raised. -/
theorem uploadToS3_snd (fs : List UploadStep) :
    (uploadToS3 fs).2 = (fs.filter (fun f => !f.outcome.isSuccess)).map
      (fun f => (f.name, failReason f.outcome)) := by
  induction fs with
  | nil => rfl
  | cons f rest ih =>
    cases f with
    | mk n u o =>
      cases o <;> simp [uploadToS3, UploadOutcome.isSuccess, ih]

/-- Every selected file lands in exactly one of the two result lists. -/
theorem uploadToS3_length (fs : List UploadStep) :
    (uploadToS3 fs).1.length + (uploadToS3 fs).2.length = fs.length := by
  induction fs with
  | nil => rfl
  | cons f rest ih =>
    cases f with
    | mk n u o =>
      cases o <;> simp [uploadToS3] <;> omega

/-! ## Claim theorems -/

/-- C3: a question that is empty or all whitespace makes
`perguntar_backend` return an error dict (`ok = False` with message
"Pergunta vazia.") without issuing the HTTP POST, and any question with a
non-whitespace character is forwarded to the backend. -/
theorem claim_C3_empty_question_guard (p : String) (k : Int) (ns : Option String)
    (docs : Option (List Json)) (net : PostOutcome) :
    ((perguntar_backend p k ns docs net).requestSent = false
      ↔ p.data.all pyIsSpace = true)
    ∧ (p.data.all pyIsSpace = true →
        (perguntar_backend p k ns docs net).result
          = .obj [("ok", .bool false), ("error", .str "Pergunta vazia.")]) := by
  cases hg : (p == "" || pyStrip p == "") with
  | true =>
    have hall := (guard_iff_all_space p).mp hg
    refine ⟨?_, fun _ => ?_⟩ <;> simp [perguntar_backend, hg, hall]
  | false =>
    have hall : ¬ p.data.all pyIsSpace = true := fun h => by
      rw [(guard_iff_all_space p).mpr h] at hg
      exact Bool.true_eq_false.mp hg
    simp [perguntar_backend, hg, hall]

/-- C3 witness: on the blank question `" \t "` no request is sent and the
error dict is returned; on `"oi"` the request goes out. -/
theorem claim_C3_witness :
    (perguntar_backend " \t " 4 none none (.exception "e")).requestSent = false
    ∧ (perguntar_backend " \t " 4 none none (.exception "e")).result
        = .obj [("ok", .bool false), ("error", .str "Pergunta vazia.")]
    ∧ (perguntar_backend "oi" 4 none none (.exception "e")).requestSent = true := by
  refine ⟨?_, ?_, ?_⟩
  · exact (claim_C3_empty_question_guard " \t " 4 none none (.exception "e")).1.mpr (by decide)
  · exact (claim_C3_empty_question_guard " \t " 4 none none (.exception "e")).2 (by decide)
  · have h := (claim_C3_empty_question_guard "oi" 4 none none (.exception "e")).1
    cases hr : (perguntar_backend "oi" 4 none none (.exception "e")).requestSent
    · exact absurd (h.mp hr) (by decide)
    · rfl

/-- C6: `check_health_server` returns `True` exactly when the GET to
`/health` came back with status code 200, and returns `False` (rather
than raising) on any `RequestException`. -/
theorem claim_C6_health_status :
    (∀ status : Nat, check_health_server (.response status) = (status == 200))
    ∧ (∀ msg : String, check_health_server (.exception msg) = false) :=
  ⟨fun _ => rfl, fun _ => rfl⟩

/-- C8 counterexample: the claim "no custom retry count or retry mode is
set by this program" is false — the `boto3.client` call passes
`retries={"max_attempts": 3, "mode": "standard"}`, so the S3 client's
retry configuration is not the library default. -/
theorem claim_C8_cex : ¬ s3_client_config.retries = none := by
  simp [s3_client_config]

/-- C8 amended: the two `requests` calls pass only `timeout` (and `json`)
and so keep the HTTP library's default retry behaviour, but the S3 client
is built with the explicit retry configuration `max_attempts = 3`,
`mode = "standard"`. -/
theorem claim_C8_retry_config :
    s3_client_config.retries = some { maxAttempts := 3, mode := "standard" }
    ∧ s3_client_config.signature_version = "s3v4"
    ∧ requests_get_kwargs = ["timeout"]
    ∧ requests_post_kwargs = ["json", "timeout"] :=
  ⟨rfl, rfl, rfl, rfl⟩

/-- C4: `check_s3_access` consumes the one `head_bucket` outcome and
always returns a pair: `(True, "Acesso ao bucket OK.")` exactly on
success, and `False` with a non-empty human-readable message on
`NoCredentialsError`, `EndpointConnectionError`, `ClientError` and any
other exception — it never propagates the exception. -/
theorem claim_C4_s3_access_total (ep : String) (o : HeadBucketOutcome) :
    ((check_s3_access ep o).1 = true ↔ o = .success)
    ∧ (o = .success → check_s3_access ep o = (true, "Acesso ao bucket OK."))
    ∧ (check_s3_access ep o).2 ≠ "" := by
  cases o with
  | success =>
    exact ⟨by simp [check_s3_access], fun _ => rfl,
      by show ("Acesso ao bucket OK." : String) ≠ ""; decide⟩
  | noCredentials =>
    exact ⟨by simp [check_s3_access], by simp,
      by show ("Credenciais AWS ausentes." : String) ≠ ""; decide⟩
  | endpointConnectionError e =>
    refine ⟨by simp [check_s3_access], by simp, ?_⟩
    exact append_ne_empty_left _ _
      (append_ne_empty_left _ _ (append_ne_empty_left _ _ (by decide)))
  | clientError e =>
    exact ⟨by simp [check_s3_access], by simp,
      append_ne_empty_left _ _ (by decide)⟩
  | otherException e =>
    exact ⟨by simp [check_s3_access], by simp,
      append_ne_empty_left _ _ (by decide)⟩

/-- C4 witness: on a success outcome the OK pair comes back, and on an
`Exception` outcome the message is non-empty. -/
theorem claim_C4_witness :
    check_s3_access "https://minio.local" .success = (true, "Acesso ao bucket OK.")
    ∧ (check_s3_access "https://minio.local" (.otherException "boom")).2 ≠ "" :=
  ⟨(claim_C4_s3_access_total "https://minio.local" .success).2.1 rfl,
   (claim_C4_s3_access_total "https://minio.local" (.otherException "boom")).2.2⟩

/-- C9: every value `perguntar_backend` returns is a dict with a boolean
`"ok"`; with `ok = True` it is exactly `{ok, data}`, with `ok = False` it
is exactly `{ok, error}` with a string message. (The Lean model is total,
matching the source: every exception the POST can raise is caught.) -/
theorem claim_C9_result_shape (p : String) (k : Int) (ns : Option String)
    (docs : Option (List Json)) (net : PostOutcome) :
    ∃ b : Bool,
      (perguntar_backend p k ns docs net).result.lookup "ok" = some (.bool b)
      ∧ (b = true → ∃ d, (perguntar_backend p k ns docs net).result
          = .obj [("ok", .bool true), ("data", d)])
      ∧ (b = false → ∃ e, (perguntar_backend p k ns docs net).result
          = .obj [("ok", .bool false), ("error", .str e)]) := by
  unfold perguntar_backend
  split
  · exact ⟨false, rfl, by simp, fun _ => ⟨"Pergunta vazia.", rfl⟩⟩
  · cases net with
    | response status text parsed =>
      simp only
      split
      · exact ⟨false, rfl, by simp, fun _ => ⟨_, rfl⟩⟩
      · cases parsed with
        | some j => exact ⟨true, rfl, fun _ => ⟨j, rfl⟩, by simp⟩
        | none => exact ⟨true, rfl, fun _ => ⟨_, rfl⟩, by simp⟩
    | exception msg => exact ⟨false, rfl, by simp, fun _ => ⟨_, rfl⟩⟩

/-- C9 witness: the shape holds at a concrete failing call. -/
theorem claim_C9_witness :
    ∃ b : Bool,
      (perguntar_backend "oi" 3 none none (.exception "down")).result.lookup "ok"
        = some (.bool b)
      ∧ (b = true → ∃ d, (perguntar_backend "oi" 3 none none (.exception "down")).result
          = .obj [("ok", .bool true), ("data", d)])
      ∧ (b = false → ∃ e, (perguntar_backend "oi" 3 none none (.exception "down")).result
          = .obj [("ok", .bool false), ("error", .str e)]) :=
  claim_C9_result_shape "oi" 3 none none (.exception "down")

/-- C2 counterexample: with a success status (200) and a body `"not json"`
that is not valid JSON, `perguntar_backend` does NOT produce an error
result — the returned dict has `ok = True` and no `error` key, refuting
the claim that malformed JSON on a success response is reported as a
failure case. -/
theorem claim_C2_cex :
    ((perguntar_backend "oi" 4 none none (.response 200 "not json" none)).result).lookup "ok"
      = some (.bool true)
    ∧ ((perguntar_backend "oi" 4 none none (.response 200 "not json" none)).result).lookup "error"
      = none :=
  ⟨rfl, rfl⟩

/-- C2 amended: when the POST returns a success status (no
`raise_for_status` error, i.e. status outside [400, 600)) and the body is
not valid JSON, `perguntar_backend` returns a SUCCESS result whose data
wraps the raw body text: `{ok: True, data: {raw: text}}`; malformed JSON
on a success status is not reported as an error. -/
theorem claim_C2_raw_success (p : String) (k : Int) (ns : Option String)
    (docs : Option (List Json)) (status : Nat) (text : String)
    (hq : (p == "" || pyStrip p == "") = false)
    (hs : (400 ≤ status && status < 600) = false) :
    (perguntar_backend p k ns docs (.response status text none)).result
      = .obj [("ok", .bool true), ("data", .obj [("raw", .str text)])] := by
  simp [perguntar_backend, hq, hs]

/-- C2 witness: the amended behaviour at a concrete call. -/
theorem claim_C2_witness :
    (perguntar_backend "oi" 4 none none (.response 200 "not json" none)).result
      = .obj [("ok", .bool true), ("data", .obj [("raw", .str "not json")])] :=
  claim_C2_raw_success "oi" 4 none none 200 "not json" (by decide) (by decide)

/-- C1 counterexample: the payload key "namespace" is NOT present for
every provided namespace — passing the provided (but empty) namespace
`some ""` yields a payload whose only keys are `question` and `k`,
because the code tests Python truthiness (`if namespace:`), not presence. -/
theorem claim_C1_cex :
    (perguntar_backend "oi" 4 (some "") none (.exception "e")).payload
      = some (.obj [("question", .str "oi"), ("k", .num 4)])
    ∧ (Json.obj [("question", Json.str "oi"), ("k", Json.num 4)]).lookup "namespace"
      = none :=
  ⟨rfl, rfl⟩

/-- C1 amended: for every non-blank question the payload POSTed to `/chat`
has exactly the keys `question` (the stripped question) and `k`, plus
`namespace` exactly when a NON-EMPTY namespace is provided and `documents`
exactly when a NON-EMPTY documents list is provided. -/
theorem claim_C1_payload_contract (p : String) (k : Int) (ns : Option String)
    (docs : Option (List Json)) (net : PostOutcome)
    (hq : (p == "" || pyStrip p == "") = false) :
    ∃ fields, (perguntar_backend p k ns docs net).payload = some (.obj fields)
      ∧ fields.map Prod.fst
          = ["question", "k"]
            ++ (if optStrTruthy ns then ["namespace"] else [])
            ++ (if optListTruthy docs then ["documents"] else [])
      ∧ (Json.obj fields).lookup "question" = some (.str (pyStrip p))
      ∧ (Json.obj fields).lookup "k" = some (.num k)
      ∧ (optStrTruthy ns = true →
          (Json.obj fields).lookup "namespace" = some (.str (ns.getD "")))
      ∧ (optListTruthy docs = true →
          (Json.obj fields).lookup "documents" = some (.arr (docs.getD []))) := by
  have hpay : (perguntar_backend p k ns docs net).payload
      = some (buildPayload p k ns docs) := by
    simp [perguntar_backend, hq]
  cases hns : optStrTruthy ns with
  | false =>
    cases hdocs : optListTruthy docs with
    | false =>
      refine ⟨[("question", .str (pyStrip p)), ("k", .num k)],
        ?_, ?_, rfl, rfl, ?_, ?_⟩
      · rw [hpay]; simp [buildPayload, hns, hdocs]
      · simp [hns, hdocs]
      · simp [hns]
      · simp [hdocs]
    | true =>
      refine ⟨[("question", .str (pyStrip p)), ("k", .num k),
        ("documents", .arr (docs.getD []))], ?_, ?_, rfl, rfl, ?_, fun _ => rfl⟩
      · rw [hpay]; simp [buildPayload, hns, hdocs]
      · simp [hns, hdocs]
      · simp [hns]
  | true =>
    cases hdocs : optListTruthy docs with
    | false =>
      refine ⟨[("question", .str (pyStrip p)), ("k", .num k),
        ("namespace", .str (ns.getD ""))], ?_, ?_, rfl, rfl, fun _ => rfl, ?_⟩
      · rw [hpay]; simp [buildPayload, hns, hdocs]
      · simp [hns, hdocs]
      · simp [hdocs]
    | true =>
      refine ⟨[("question", .str (pyStrip p)), ("k", .num k),
        ("namespace", .str (ns.getD "")), ("documents", .arr (docs.getD []))],
        ?_, ?_, rfl, rfl, fun _ => rfl, fun _ => rfl⟩
      · rw [hpay]; simp [buildPayload, hns, hdocs]
      · simp [hns, hdocs]

/-- C1 witness: the amended contract at a concrete call with a non-empty
namespace and a non-empty documents list. -/
theorem claim_C1_witness :
    ∃ fields,
      (perguntar_backend " oi " 4 (some "ns") (some [Json.num 1]) (.exception "e")).payload
        = some (.obj fields)
      ∧ fields.map Prod.fst
          = ["question", "k"]
            ++ (if optStrTruthy (some "ns") then ["namespace"] else [])
            ++ (if optListTruthy (some [Json.num 1]) then ["documents"] else [])
      ∧ (Json.obj fields).lookup "question" = some (.str (pyStrip " oi "))
      ∧ (Json.obj fields).lookup "k" = some (.num 4)
      ∧ (optStrTruthy (some "ns") = true →
          (Json.obj fields).lookup "namespace" = some (.str ((some "ns").getD "")))
      ∧ (optListTruthy (some [Json.num 1]) = true →
          (Json.obj fields).lookup "documents"
            = some (.arr ((some [Json.num 1]).getD []))) :=
  claim_C1_payload_contract " oi " 4 (some "ns") (some [Json.num 1]) (.exception "e")
    (by decide)

/-- C5: on any non-empty selection, the upload loop records every file in
exactly one of the two result lists — the successes, in order, as their
generated keys `"uploads/" ++ uuid-hex ++ extension`, the failures, in
order, as `(original name, reason)` — and one file's failure does not stop
the rest (both lists together still cover every file). -/
theorem claim_C5_upload_partition (fs : List UploadStep) (_h : fs ≠ []) :
    (uploadToS3 fs).1 = (fs.filter (fun f => f.outcome.isSuccess)).map
        (fun f => "uploads/" ++ s3_safe_key f.uuidHex f.name)
    ∧ (uploadToS3 fs).2 = (fs.filter (fun f => !f.outcome.isSuccess)).map
        (fun f => (f.name, failReason f.outcome))
    ∧ (uploadToS3 fs).1.length + (uploadToS3 fs).2.length = fs.length :=
  ⟨uploadToS3_fst fs, uploadToS3_snd fs, uploadToS3_length fs⟩

/-- C5 witness: a two-file batch where the second upload fails still
processes both files, one per result list. -/
theorem claim_C5_witness :
    (uploadToS3 [⟨"a.pdf", "u1", .success⟩,
        ⟨"b.pdf", "u2", .clientError "AccessDenied" "denied"⟩]).1
      = ["uploads/u1.pdf"]
    ∧ (uploadToS3 [⟨"a.pdf", "u1", .success⟩,
        ⟨"b.pdf", "u2", .clientError "AccessDenied" "denied"⟩]).2
      = [("b.pdf", "AccessDenied - denied")]
    ∧ (uploadToS3 [⟨"a.pdf", "u1", .success⟩,
        ⟨"b.pdf", "u2", .clientError "AccessDenied" "denied"⟩]).1.length
      + (uploadToS3 [⟨"a.pdf", "u1", .success⟩,
        ⟨"b.pdf", "u2", .clientError "AccessDenied" "denied"⟩]).2.length
      = 2 :=
  claim_C5_upload_partition
    [⟨"a.pdf", "u1", .success⟩, ⟨"b.pdf", "u2", .clientError "AccessDenied" "denied"⟩]
    (by simp)

/-- C7: the displayed answer is chosen by Python truthiness ("present and
non-empty") from `answer`, then `resposta`, then `raw`, falling back to
the whole response dict when none is truthy; the sources block is rendered
(`some _`) with `sources`, else `fontes`, and only when one of the two is
truthy. -/
theorem claim_C7_extraction_order (fields : List (String × Json)) :
    ((dictGet fields "answer").truthy = true →
      (extractDisplay fields).1 = dictGet fields "answer")
    ∧ ((dictGet fields "answer").truthy = false →
        (dictGet fields "resposta").truthy = true →
        (extractDisplay fields).1 = dictGet fields "resposta")
    ∧ ((dictGet fields "answer").truthy = false →
        (dictGet fields "resposta").truthy = false →
        (dictGet fields "raw").truthy = true →
        (extractDisplay fields).1 = dictGet fields "raw")
    ∧ ((dictGet fields "answer").truthy = false →
        (dictGet fields "resposta").truthy = false →
        (dictGet fields "raw").truthy = false →
        (extractDisplay fields).1 = .obj fields)
    ∧ ((dictGet fields "sources").truthy = true →
        (extractDisplay fields).2 = some (dictGet fields "sources"))
    ∧ ((dictGet fields "sources").truthy = false →
        (dictGet fields "fontes").truthy = true →
        (extractDisplay fields).2 = some (dictGet fields "fontes"))
    ∧ ((dictGet fields "sources").truthy = false →
        (dictGet fields "fontes").truthy = false →
        (extractDisplay fields).2 = none) := by
  refine ⟨?_, ?_, ?_, ?_, ?_, ?_, ?_⟩ <;> intros <;>
    simp_all [extractDisplay, pyOr]

/-- C7 witness: with only `resposta` and `fontes` present, the answer
falls through to `resposta` and the sources render `fontes`. -/
theorem claim_C7_witness :
    (extractDisplay [("resposta", Json.str "r"), ("fontes", Json.arr [Json.str "f"])]).1
      = Json.str "r"
    ∧ (extractDisplay [("resposta", Json.str "r"), ("fontes", Json.arr [Json.str "f"])]).2
      = some (Json.arr [Json.str "f"]) :=
  ⟨(claim_C7_extraction_order
      [("resposta", Json.str "r"), ("fontes", Json.arr [Json.str "f"])]).2.1 rfl rfl,
   (claim_C7_extraction_order
      [("resposta", Json.str "r"), ("fontes", Json.arr [Json.str "f"])]).2.2.2.2.2.1 rfl rfl⟩

/-- C10: for a 32-character lowercase-hex uuid, `s3_safe_key` returns that
hex string itself (32 hex characters) when the name has no dot; otherwise
the hex string, a dot, and the segment after the name's last dot (so a
name ending in "." yields a key ending in "."); and the key depends on
the name only through its extension — the original base filename is never
used ("never contains the original base filename"). -/
theorem claim_C10_safe_key (u : String) (name : String) (h : isHex32 u = true) :
    (name.data.contains '.' = false →
      s3_safe_key u name = u ∧ (s3_safe_key u name).length = 32
        ∧ (s3_safe_key u name).data.all isLowerHex = true)
    ∧ (name.data.contains '.' = true →
        s3_safe_key u name = u ++ "." ++ String.mk (lastSeg name.data))
    ∧ (∀ l : List Char, name.data = l ++ ['.'] →
        (s3_safe_key u name).data.getLast? = some '.')
    ∧ (∀ name2 : String, name.data.contains '.' = name2.data.contains '.' →
        lastSeg name.data = lastSeg name2.data →
        s3_safe_key u name = s3_safe_key u name2) := by
  simp only [isHex32, Bool.and_eq_true, beq_iff_eq] at h
  obtain ⟨hlen, hhex⟩ := h
  refine ⟨?_, ?_, ?_, ?_⟩
  · intro hc
    have hext : extOf name.data = [] := by
      unfold extOf
      rw [hc]
      simp
    have hk : s3_safe_key u name = u := by
      unfold s3_safe_key
      rw [hext]
      exact String.append_empty u
    exact ⟨hk, by rw [hk]; exact hlen, by rw [hk]; exact hhex⟩
  · intro hc
    have hext : extOf name.data = '.' :: lastSeg name.data := by
      unfold extOf
      rw [hc]
      simp
    apply String.ext
    unfold s3_safe_key
    rw [hext]
    simp [String.data_append]
  · intro l hl
    have hc : name.data.contains '.' = true := by
      rw [hl]
      exact List.elem_iff.mpr (by simp)
    have hseg : lastSeg name.data = [] := by
      rw [hl]
      exact lastSeg_concat_dot l
    have hext : extOf name.data = ['.'] := by
      unfold extOf
      rw [hc, hseg]
      simp
    unfold s3_safe_key
    rw [hext]
    rw [String.data_append]
    exact List.getLast?_concat _
  · intro name2 hcon hseg
    unfold s3_safe_key extOf
    rw [hcon, hseg]

/-- C10 witness: a concrete 32-character hex uuid with a dotted and a
dotless name. -/
theorem claim_C10_witness :
    s3_safe_key "0123456789abcdef0123456789abcdef" "relatorio.pdf"
      = "0123456789abcdef0123456789abcdef" ++ "."
        ++ String.mk (lastSeg ("relatorio.pdf").data)
    ∧ s3_safe_key "0123456789abcdef0123456789abcdef" "semext"
      = "0123456789abcdef0123456789abcdef" :=
  ⟨(claim_C10_safe_key "0123456789abcdef0123456789abcdef" "relatorio.pdf"
      (by decide)).2.1 (by decide),
   ((claim_C10_safe_key "0123456789abcdef0123456789abcdef" "semext"
      (by decide)).1 (by decide)).1⟩
